import Mathlib

/-!
Shallow embedding of the orbital-position model shared by the repository's
solar-system scripts (the "greatest universe" section of chandragayidea.py,
solar_system.py, universe.py), together with theorems settling the
specification's claims about that model.

Floating-point arithmetic is modelled over the real numbers; Python runtime
exceptions (ZeroDivisionError from division, ValueError from math.sqrt of a
negative argument) are modelled by an Except result.
-/

noncomputable section

/-- Python runtime errors that the embedded arithmetic can raise. -/
inductive PyErr where
  | zeroDivisionError
  | valueError
  deriving DecidableEq

/-- math.radians: convert degrees to radians (deg * pi / 180). -/
def radians (deg : ℝ) : ℝ := deg * (Real.pi / 180)

/-- Python float modulo for a nonzero modulus: x % y = x - y * floor (x / y). -/
def pymod (x y : ℝ) : ℝ := x - y * ⌊x / y⌋

/-- clamp(v, a, b) = max(a, min(b, v)) from chandragayidea.py. -/
def clamp (v a b : ℝ) : ℝ := max a (min b v)

/-- AU_TO_PIXELS = 200.0: base scale converting astronomical units to pixels. -/
def AU_TO_PIXELS : ℝ := 200

/-- The mutable view globals of chandragayidea.py gathered in one record:
view_offset_x / view_offset_y (pan, mutated by `pan`) and GLOBAL_SCALE
(zoom factor, mutated by `zoom_in` / `zoom_out` / `reset_view`). -/
structure ViewState where
  view_offset_x : ℝ
  view_offset_y : ℝ
  global_scale : ℝ

/-- au_to_px(au) = au * AU_TO_PIXELS * GLOBAL_SCALE. -/
def au_to_px (v : ViewState) (au : ℝ) : ℝ := au * AU_TO_PIXELS * v.global_scale

/-- radius_km_to_pixels: px = 2.8 * log(max(1, radius_km)) + 1.5, clamped
to [3, 60]. -/
def radius_km_to_pixels (radius_km : ℝ) : ℝ :=
  clamp (2.8 * Real.log (max 1 radius_km) + 1.5) 3 60

/-- The orbital parameters of a Planet in chandragayidea.py that enter
compute_orbital_position: semi-major axis `a` (AU), eccentricity `e`,
`inclination` (degrees), `period_days`, and the per-instance starting offset
`angle_deg` (drawn once by random.uniform(0, 360) in __init__ and never
changed afterwards, hence a plain field here). -/
structure Planet where
  a : ℝ
  e : ℝ
  inclination : ℝ
  period_days : ℝ
  angle_deg : ℝ

/-- The angle (degrees) swept by compute_orbital_position:
theta = ((sim_days / period_days) mod 1) * 360 + angle_deg. -/
def orbit_theta (p : Planet) (sim_days : ℝ) : ℝ :=
  Int.fract (sim_days / p.period_days) * 360 + p.angle_deg

/-- Planet.compute_orbital_position(sim_days) from chandragayidea.py:
frac = (sim_days / period_days) % 1.0 (ZeroDivisionError when period is 0);
theta = frac * 360 + angle_deg; a_px = au_to_px(a);
b_px = a_px * sqrt(1 - e**2) (ValueError when 1 - e^2 < 0);
x = a_px * cos(radians theta); y = b_px * sin(radians theta);
then y *= cos(radians inclination). -/
def compute_orbital_position (p : Planet) (v : ViewState) (sim_days : ℝ) :
    Except PyErr (ℝ × ℝ) :=
  if p.period_days = 0 then .error .zeroDivisionError else
  let frac := Int.fract (sim_days / p.period_days)
  let theta := frac * 360 + p.angle_deg
  let a_px := au_to_px v p.a
  if 1 - p.e ^ 2 < 0 then .error .valueError else
  let b_px := a_px * Real.sqrt (1 - p.e ^ 2)
  let rad := radians theta
  let x := a_px * Real.cos rad
  let y := b_px * Real.sin rad
  let inc_rad := radians p.inclination
  .ok (x, y * Real.cos inc_rad)

/-- CelestialBody.world_to_screen(x, y) from chandragayidea.py:
sx = (x + view_offset_x) * GLOBAL_SCALE, sy = (y + view_offset_y) * GLOBAL_SCALE. -/
def world_to_screen (v : ViewState) (x y : ℝ) : ℝ × ℝ :=
  ((x + v.view_offset_x) * v.global_scale, (y + v.view_offset_y) * v.global_scale)

/-- moon_dist_to_pixels(dist_thousand_km, parent_radius_px) from
chandragayidea.py: base = parent_radius_px * 2.5; base + dist_thousand_km * 0.02. -/
def moon_dist_to_pixels (dist_thousand_km parent_radius_px : ℝ) : ℝ :=
  parent_radius_px * 2.5 + dist_thousand_km * 0.02

/-- The parameters of a Moon in chandragayidea.py used by Moon.draw:
dist_thousand_km, orbital_period (days), the stored eccentricity `ecc` and
inclination `incl` (degrees), the per-instance starting offset `angle`
(random.uniform(0, 360) at construction), and the parent planet's visual
radius parent.radius_px (computed once at startup). -/
structure MoonCfg where
  dist_thousand_km : ℝ
  orbital_period : ℝ
  ecc : ℝ
  incl : ℝ
  angle : ℝ
  parent_radius_px : ℝ

/-- The position part of Moon.draw(sim_days, dt_days, parent_x, parent_y) from
chandragayidea.py: frac = (sim_days / orbital_period) % 1.0;
theta = frac * 360 + angle; r_px = moon_dist_to_pixels(dist, parent.radius_px);
x = parent_x + r_px * cos(radians theta);
y = parent_y + r_px * sin(radians theta) * cos(radians incl).
Note the stored eccentricity `ecc` is never read here. -/
def compute_satellite_position (m : MoonCfg) (parent : ℝ × ℝ) (sim_days : ℝ) :
    Except PyErr (ℝ × ℝ) :=
  if m.orbital_period = 0 then .error .zeroDivisionError else
  let frac := Int.fract (sim_days / m.orbital_period)
  let theta := frac * 360 + m.angle
  let rad := radians theta
  let r_px := moon_dist_to_pixels m.dist_thousand_km m.parent_radius_px
  .ok (parent.1 + r_px * Real.cos rad,
       parent.2 + r_px * Real.sin rad * Real.cos (radians m.incl))

/-- Modelled from the spec: "computeSatellitePosition(moon, parentPosition,
simulatedTime) — same formula as [computeOrbitalPosition] but orbitalRadius /
eccentricity / period / inclination belong to the moon, and the final (x, y)
is offset by adding parentPosition"; i.e. the elliptical formula with the
semi-minor factor sqrt(1 - ecc^2) applied to the y component. Stated only to
compare with compute_satellite_position as the code actually defines it. -/
def spec_satellite_position (m : MoonCfg) (parent : ℝ × ℝ) (sim_days : ℝ) :
    Except PyErr (ℝ × ℝ) :=
  if m.orbital_period = 0 then .error .zeroDivisionError else
  let frac := Int.fract (sim_days / m.orbital_period)
  let theta := frac * 360 + m.angle
  let rad := radians theta
  let r_px := moon_dist_to_pixels m.dist_thousand_km m.parent_radius_px
  .ok (parent.1 + r_px * Real.cos rad,
       parent.2 + r_px * Real.sqrt (1 - m.ecc ^ 2) * Real.sin rad *
         Real.cos (radians m.incl))

/-- The simulation-clock globals of chandragayidea.py: sim_days (accumulated
simulated days), TIME_SCALE (simulation days per real second) and the paused
flag. -/
structure SimState where
  sim_days : ℝ
  time_scale : ℝ
  paused : Bool

/-- Initial values of the globals: sim_days = 0.0, TIME_SCALE = 120.0,
paused = False. -/
def init_sim_state : SimState := ⟨0, 120, false⟩

/-- One iteration of main_loop in chandragayidea.py restricted to the clock:
if not paused, sim_days += dt_real * TIME_SCALE; otherwise sim_days is left
unchanged (dt_sim_days = 0.0). -/
def loop_step (s : SimState) (dt_real : ℝ) : SimState :=
  if s.paused then s else { s with sim_days := s.sim_days + dt_real * s.time_scale }

/-- User events affecting the clock state: a frame of the main loop with the
measured elapsed real time, toggle_pause, speed_up (TIME_SCALE *= 1.8) and
slow_down (TIME_SCALE /= 1.8). -/
inductive SimEvent where
  | frame (dt_real : ℝ)
  | togglePause
  | speedUp
  | slowDown

/-- Effect of one event on the clock state, read off the handlers of
chandragayidea.py. -/
def apply_sim_event (s : SimState) : SimEvent → SimState
  | .frame dt => loop_step s dt
  | .togglePause => { s with paused := !s.paused }
  | .speedUp => { s with time_scale := s.time_scale * 1.8 }
  | .slowDown => { s with time_scale := s.time_scale / 1.8 }

/-- The clock state after a sequence of events starting from the initial
globals. -/
def run_sim (evs : List SimEvent) : SimState :=
  evs.foldl apply_sim_event init_sim_state

/-- MAX_TRAIL_POINTS = 120 in chandragayidea.py. -/
def MAX_TRAIL_POINTS : ℕ := 120

/-- COMET_TRAIL_LENGTH = 80 in solar_system.py. -/
def COMET_TRAIL_LENGTH : ℕ := 80

/-- The trail maintenance of Planet.draw / Moon.draw in chandragayidea.py:
if SHOW_TRAILS: trail.append(pt); if len(trail) > MAX_TRAIL_POINTS:
trail.pop(0); else: trail = []. -/
def planet_trail_step (show_trails : Bool) (trail : List (ℝ × ℝ)) (pt : ℝ × ℝ) :
    List (ℝ × ℝ) :=
  if show_trails then
    let t := trail ++ [pt]
    if t.length > MAX_TRAIL_POINTS then t.drop 1 else t
  else []

/-- The trail maintenance of Comet.update in solar_system.py:
trail.append(pt); if len(trail) > COMET_TRAIL_LENGTH: trail.pop(0). -/
def comet_trail_step (trail : List (ℝ × ℝ)) (pt : ℝ × ℝ) : List (ℝ × ℝ) :=
  let t := trail ++ [pt]
  if t.length > COMET_TRAIL_LENGTH then t.drop 1 else t

/-- The per-frame mutable state of one planet record: its fixed orbital
parameters and its trail of past screen positions. -/
structure PlanetState where
  params : Planet
  trail : List (ℝ × ℝ)

/-- The state-relevant part of Planet.draw in chandragayidea.py: compute the
orbital position (propagating any arithmetic error), convert it to screen
coordinates, and append it to the trail under the bound. The record itself is
only updated, never replaced by a different body. -/
def frame_draw (v : ViewState) (show_trails : Bool) (t : ℝ) (st : PlanetState) :
    Except PyErr PlanetState :=
  match compute_orbital_position st.params v t with
  | .error er => .error er
  | .ok (x, y) =>
      .ok { st with trail := planet_trail_step show_trails st.trail (world_to_screen v x y) }

/-- The per-frame planet update loop of main_loop ("for p in planets:
p.draw(...)"): each planet record in the startup list is updated in place;
an arithmetic error aborts the frame. -/
def draw_all (v : ViewState) (show_trails : Bool) (t : ℝ) :
    List PlanetState → Except PyErr (List PlanetState)
  | [] => .ok []
  | st :: rest =>
      match frame_draw v show_trails t st with
      | .error er => .error er
      | .ok st' =>
          match draw_all v show_trails t rest with
          | .error er => .error er
          | .ok rest' => .ok (st' :: rest')

/-- The angular speed computed by Moon.update in solar_system.py:
omega = 360.0 / max(1.0, period). -/
def ss_moon_omega (period : ℝ) : ℝ := 360 / max 1 period

/-- Moon.update(dt, speed_multiplier) from solar_system.py, for a parent at
position (px, py) and precomputed orbit_px: omega = 360 / max(1, period)
(ZeroDivisionError only if the denominator were zero);
angle = (angle + omega * speed_multiplier * dt * 60) % 360;
x = px + cos(radians angle) * orbit_px; y = py + sin(radians angle) * orbit_px.
Returns the new angle and position. -/
def ss_moon_update (angle period mult dt : ℝ) (parent : ℝ × ℝ) (orbit_px : ℝ) :
    Except PyErr (ℝ × (ℝ × ℝ)) :=
  if max 1 period = 0 then .error .zeroDivisionError else
  let omega := ss_moon_omega period
  let angle' := pymod (angle + omega * mult * dt * 60) 360
  let rad := radians angle'
  .ok (angle', (parent.1 + Real.cos rad * orbit_px, parent.2 + Real.sin rad * orbit_px))

/-! ## Helper lemmas -/

lemma compute_orbital_position_eval (p : Planet) (v : ViewState) (t : ℝ)
    (h0 : p.period_days ≠ 0) (h1 : 0 ≤ 1 - p.e ^ 2) :
    compute_orbital_position p v t =
      .ok (au_to_px v p.a * Real.cos (radians (orbit_theta p t)),
           au_to_px v p.a * Real.sqrt (1 - p.e ^ 2) *
             Real.sin (radians (orbit_theta p t)) *
             Real.cos (radians p.inclination)) := by
  unfold compute_orbital_position orbit_theta
  rw [if_neg h0, if_neg (not_lt.mpr h1)]

lemma compute_orbital_position_quarter_example :
    compute_orbital_position ⟨0.5, 0, 0, 365, 0⟩ ⟨0, 0, 1⟩ 91.25 = .ok (0, 100) := by
  rw [compute_orbital_position_eval _ _ _ (by norm_num) (by norm_num)]
  have hf : Int.fract ((91.25 : ℝ) / 365) = 0.25 := by
    rw [show (91.25 : ℝ) / 365 = 0.25 by norm_num]
    rw [Int.fract_eq_self.mpr (by norm_num)]
  simp only [orbit_theta, hf]
  rw [show radians (0.25 * 360 + 0) = Real.pi / 2 by unfold radians; ring]
  rw [show radians (0 : ℝ) = 0 by unfold radians; ring]
  simp [au_to_px, AU_TO_PIXELS]
  norm_num

lemma compute_orbital_position_zero_example :
    compute_orbital_position ⟨0.5, 0, 0, 365, 0⟩ ⟨0, 0, 1⟩ 0 = .ok (100, 0) := by
  rw [compute_orbital_position_eval _ _ _ (by norm_num) (by norm_num)]
  simp [orbit_theta, radians, au_to_px, AU_TO_PIXELS]
  norm_num

lemma compute_orbital_position_scale (p : Planet) (t : ℝ)
    (ox oy s ox' oy' : ℝ) :
    compute_orbital_position p ⟨ox, oy, s⟩ t = compute_orbital_position p ⟨ox', oy', s⟩ t := by
  unfold compute_orbital_position au_to_px
  rfl

/-! ## Claim C1 -/

/-- C1 (counterexample): at eccentricity exactly 1.0 (period 365),
compute_orbital_position does NOT fail with any error — it returns the
position (200, 0). No ConfigurationError exists anywhere in the code. -/
theorem c1_counterexample :
    compute_orbital_position ⟨1, 1, 0, 365, 0⟩ ⟨0, 0, 1⟩ 0 = .ok (200, 0) := by
  rw [compute_orbital_position_eval _ _ _ (by norm_num) (by norm_num)]
  simp [orbit_theta, radians, au_to_px, AU_TO_PIXELS]

/-- C1 (amended): compute_orbital_position performs no parameter validation.
With eccentricity = 1.0 (and a nonzero period) it silently returns a
degenerate position whose y component is 0; with period = 0 it raises
ZeroDivisionError (not a ConfigurationError, which does not exist in the
code); for every body with eccentricity in [0, 1) and nonzero period it
returns a position without raising. -/
theorem c1_amended :
    (∀ (p : Planet) (v : ViewState) (t : ℝ), p.e = 1 → p.period_days ≠ 0 →
      ∃ x, compute_orbital_position p v t = .ok (x, 0)) ∧
    (∀ (p : Planet) (v : ViewState) (t : ℝ), p.period_days = 0 →
      compute_orbital_position p v t = .error .zeroDivisionError) ∧
    (∀ (p : Planet) (v : ViewState) (t : ℝ), 0 ≤ p.e → p.e < 1 → p.period_days ≠ 0 →
      ∃ pos, compute_orbital_position p v t = .ok pos) := by
  refine ⟨?_, ?_, ?_⟩
  · intro p v t he hp
    refine ⟨au_to_px v p.a * Real.cos (radians (orbit_theta p t)), ?_⟩
    rw [compute_orbital_position_eval _ _ _ hp (by rw [he]; norm_num)]
    rw [he]
    norm_num
  · intro p v t hp
    unfold compute_orbital_position
    rw [if_pos hp]
  · intro p v t he0 he1 hp
    exact ⟨_, compute_orbital_position_eval p v t hp (by nlinarith)⟩

/-- C1 (witness): the three cases of c1_amended at concrete inputs. -/
theorem c1_witness :
    (∃ x, compute_orbital_position ⟨1, 1, 0, 365, 0⟩ ⟨0, 0, 1⟩ 5 = .ok (x, 0)) ∧
    (compute_orbital_position ⟨1, 0.5, 0, 0, 0⟩ ⟨0, 0, 1⟩ 5 = .error .zeroDivisionError) ∧
    (∃ pos, compute_orbital_position ⟨1, 0.5, 0, 365, 0⟩ ⟨0, 0, 1⟩ 5 = .ok pos) :=
  ⟨c1_amended.1 _ _ _ rfl (by norm_num),
   c1_amended.2.1 _ _ _ rfl,
   c1_amended.2.2 _ _ _ (by norm_num) (by norm_num) (by norm_num)⟩

/-! ## Claim C2 -/

/-- C2 (counterexample): the world position returned by
compute_orbital_position is NOT identical across two values of the view
transform's zoom scale: at GLOBAL_SCALE = 1 the demo body sits at (100, 0),
at GLOBAL_SCALE = 2 at (200, 0), because au_to_px multiplies by GLOBAL_SCALE. -/
theorem c2_counterexample :
    compute_orbital_position ⟨0.5, 0, 0, 365, 0⟩ ⟨0, 0, 1⟩ 0 ≠
      compute_orbital_position ⟨0.5, 0, 0, 365, 0⟩ ⟨0, 0, 2⟩ 0 := by
  have h2 : compute_orbital_position ⟨0.5, 0, 0, 365, 0⟩ ⟨0, 0, 2⟩ 0 = .ok (200, 0) := by
    rw [compute_orbital_position_eval _ _ _ (by norm_num) (by norm_num)]
    simp [orbit_theta, radians, au_to_px, AU_TO_PIXELS]
    norm_num
  rw [compute_orbital_position_zero_example, h2]
  intro h
  simp only [Except.ok.injEq, Prod.mk.injEq] at h
  norm_num at h

/-- C2 (amended): the result of compute_orbital_position is determined by the
body's fixed orbital parameters, the simulated time and GLOBAL_SCALE; the pan
offset (view_offset_x, view_offset_y) never affects it, but the zoom scale
does (it enters through au_to_px). -/
theorem c2_amended (p : Planet) (t : ℝ) (v v' : ViewState)
    (h : v.global_scale = v'.global_scale) :
    compute_orbital_position p v t = compute_orbital_position p v' t := by
  obtain ⟨ox, oy, s⟩ := v
  obtain ⟨ox', oy', s'⟩ := v'
  simp only at h
  subst h
  exact compute_orbital_position_scale p t ox oy s ox' oy'

/-- C2 (witness): pan-offset independence at a concrete body and time. -/
theorem c2_witness :
    compute_orbital_position ⟨0.5, 0, 0, 365, 0⟩ ⟨0, 0, 1⟩ 3 =
      compute_orbital_position ⟨0.5, 0, 0, 365, 0⟩ ⟨7, 9, 1⟩ 3 :=
  c2_amended _ _ _ _ rfl

/-! ## Claim C3 -/

/-- C3: for every body with positive period and eccentricity in [0, 1),
compute_orbital_position returns x = orbitalRadius * cos(angle) and
y = orbitalRadius * sqrt(1 - eccentricity^2) * sin(angle) * cos(inclination),
where angle = ((t / period) mod 1) * 360 + initialPhase in degrees and
orbitalRadius is the body's orbital radius in world units (au_to_px a). -/
theorem c3_orbital_position_formula (p : Planet) (v : ViewState) (t : ℝ)
    (hp : 0 < p.period_days) (he0 : 0 ≤ p.e) (he1 : p.e < 1) :
    compute_orbital_position p v t =
      .ok (au_to_px v p.a * Real.cos (radians (orbit_theta p t)),
           au_to_px v p.a * Real.sqrt (1 - p.e ^ 2) *
             Real.sin (radians (orbit_theta p t)) *
             Real.cos (radians p.inclination)) :=
  compute_orbital_position_eval p v t (ne_of_gt hp) (by nlinarith)

/-- C3 (witness): the formula instantiated at a concrete body, view and time. -/
theorem c3_witness :
    compute_orbital_position ⟨1, 0.2, 10, 365, 30⟩ ⟨1, 2, 3⟩ 50 =
      .ok (au_to_px ⟨1, 2, 3⟩ 1 *
             Real.cos (radians (orbit_theta ⟨1, 0.2, 10, 365, 30⟩ 50)),
           au_to_px ⟨1, 2, 3⟩ 1 * Real.sqrt (1 - (0.2 : ℝ) ^ 2) *
             Real.sin (radians (orbit_theta ⟨1, 0.2, 10, 365, 30⟩ 50)) *
             Real.cos (radians 10)) :=
  c3_orbital_position_formula _ _ _ (by norm_num) (by norm_num) (by norm_num)

/-! ## Claim C4 -/

/-- C4: for every valid body (positive period, eccentricity in [0, 1)), every
simulated time t and every integer k, the computed position at t equals the
one at t + k * period: the position is periodic with the body's period. -/
theorem c4_periodicity (p : Planet) (v : ViewState) (t : ℝ) (k : ℤ)
    (hp : 0 < p.period_days) (he0 : 0 ≤ p.e) (he1 : p.e < 1) :
    compute_orbital_position p v t =
      compute_orbital_position p v (t + k * p.period_days) := by
  have hne : p.period_days ≠ 0 := ne_of_gt hp
  have hth : orbit_theta p (t + k * p.period_days) = orbit_theta p t := by
    unfold orbit_theta
    have hq : (t + (k : ℝ) * p.period_days) / p.period_days = t / p.period_days + (k : ℝ) := by
      field_simp
    rw [hq, Int.fract_add_int]
  rw [compute_orbital_position_eval p v t hne (by nlinarith),
      compute_orbital_position_eval p v _ hne (by nlinarith), hth]

/-- C4 (witness): periodicity at a concrete body, time and k = 2. -/
theorem c4_witness :
    compute_orbital_position ⟨1, 0.2, 10, 365, 30⟩ ⟨0, 0, 1⟩ 10 =
      compute_orbital_position ⟨1, 0.2, 10, 365, 30⟩ ⟨0, 0, 1⟩ (10 + (2 : ℤ) * 365) :=
  c4_periodicity _ _ _ _ (by norm_num) (by norm_num) (by norm_num)

/-! ## Claim C5 -/

lemma compute_satellite_position_eval (m : MoonCfg) (parent : ℝ × ℝ) (t : ℝ)
    (h0 : m.orbital_period ≠ 0) :
    compute_satellite_position m parent t =
      .ok (parent.1 + moon_dist_to_pixels m.dist_thousand_km m.parent_radius_px *
             Real.cos (radians (Int.fract (t / m.orbital_period) * 360 + m.angle)),
           parent.2 + moon_dist_to_pixels m.dist_thousand_km m.parent_radius_px *
             Real.sin (radians (Int.fract (t / m.orbital_period) * 360 + m.angle)) *
             Real.cos (radians m.incl)) := by
  unfold compute_satellite_position
  rw [if_neg h0]

lemma spec_satellite_position_eval (m : MoonCfg) (parent : ℝ × ℝ) (t : ℝ)
    (h0 : m.orbital_period ≠ 0) :
    spec_satellite_position m parent t =
      .ok (parent.1 + moon_dist_to_pixels m.dist_thousand_km m.parent_radius_px *
             Real.cos (radians (Int.fract (t / m.orbital_period) * 360 + m.angle)),
           parent.2 + moon_dist_to_pixels m.dist_thousand_km m.parent_radius_px *
             Real.sqrt (1 - m.ecc ^ 2) *
             Real.sin (radians (Int.fract (t / m.orbital_period) * 360 + m.angle)) *
             Real.cos (radians m.incl)) := by
  unfold spec_satellite_position
  rw [if_neg h0]

/-- C5 (counterexample): for a moon carrying Earth's Moon's parameters
(dist 384.4, period 27.32, eccentricity 0.0549, inclination 0, starting angle
90, parent radius 10 px), the position computed by Moon.draw differs from the
spec's "same formula but with the moon's parameters": the code ignores the
moon's eccentricity, so its y component misses the sqrt(1 - ecc^2) factor. -/
theorem c5_counterexample :
    compute_satellite_position ⟨384.4, 27.32, 0.0549, 0, 90, 10⟩ (50, 50) 0 ≠
      spec_satellite_position ⟨384.4, 27.32, 0.0549, 0, 90, 10⟩ (50, 50) 0 := by
  rw [compute_satellite_position_eval _ _ _ (by norm_num),
      spec_satellite_position_eval _ _ _ (by norm_num)]
  have hf : Int.fract ((0 : ℝ) / 27.32) = 0 := by
    rw [zero_div, Int.fract_zero]
  simp only [hf]
  rw [show radians (0 * 360 + 90) = Real.pi / 2 by unfold radians; ring,
      show radians (0 : ℝ) = 0 by unfold radians; ring]
  rw [Real.sin_pi_div_two, Real.cos_zero]
  intro h
  simp only [Except.ok.injEq, Prod.mk.injEq] at h
  have h2 := h.2
  have hr : moon_dist_to_pixels 384.4 10 = 32.688 := by
    unfold moon_dist_to_pixels; norm_num
  rw [hr] at h2
  have hs : Real.sqrt (1 - (0.0549 : ℝ) ^ 2) = 1 := by nlinarith [h2]
  rw [Real.sqrt_eq_one] at hs
  norm_num at hs

/-- C5 (amended): Moon.draw computes a circular, not elliptical, satellite
orbit: the result is parentPosition + (r * cos(angle), r * sin(angle) *
cos(inclination)) with the moon's own period, inclination and starting angle
and r = moon_dist_to_pixels — the moon's stored eccentricity is ignored.
The offset is additive: the result minus the parent position does not depend
on the parent position. -/
theorem c5_amended :
    (∀ (m : MoonCfg) (parent : ℝ × ℝ) (t : ℝ), m.orbital_period ≠ 0 →
      compute_satellite_position m parent t =
        .ok (parent.1 + moon_dist_to_pixels m.dist_thousand_km m.parent_radius_px *
               Real.cos (radians (Int.fract (t / m.orbital_period) * 360 + m.angle)),
             parent.2 + moon_dist_to_pixels m.dist_thousand_km m.parent_radius_px *
               Real.sin (radians (Int.fract (t / m.orbital_period) * 360 + m.angle)) *
               Real.cos (radians m.incl))) ∧
    (∀ (m : MoonCfg) (p q : ℝ × ℝ) (t : ℝ), m.orbital_period ≠ 0 →
      ∃ pos pos', compute_satellite_position m p t = .ok pos ∧
        compute_satellite_position m q t = .ok pos' ∧
        pos.1 - p.1 = pos'.1 - q.1 ∧ pos.2 - p.2 = pos'.2 - q.2) := by
  refine ⟨compute_satellite_position_eval, ?_⟩
  intro m p q t h0
  refine ⟨_, _, compute_satellite_position_eval m p t h0,
    compute_satellite_position_eval m q t h0, ?_, ?_⟩ <;> ring

/-- C5 (witness): the circular formula and the additive-offset property of
c5_amended at a concrete moon with parent positions (50, 50) and (0, 0). -/
theorem c5_witness :
    (compute_satellite_position ⟨384.4, 27.32, 0.0549, 5.145, 20, 10⟩ (50, 50) 3 =
      .ok ((50 : ℝ) + moon_dist_to_pixels 384.4 10 *
             Real.cos (radians (Int.fract ((3 : ℝ) / 27.32) * 360 + 20)),
           (50 : ℝ) + moon_dist_to_pixels 384.4 10 *
             Real.sin (radians (Int.fract ((3 : ℝ) / 27.32) * 360 + 20)) *
             Real.cos (radians 5.145))) ∧
    (∃ pos pos',
      compute_satellite_position ⟨384.4, 27.32, 0.0549, 5.145, 20, 10⟩ (50, 50) 3 = .ok pos ∧
      compute_satellite_position ⟨384.4, 27.32, 0.0549, 5.145, 20, 10⟩ (0, 0) 3 = .ok pos' ∧
      pos.1 - 50 = pos'.1 - 0 ∧ pos.2 - 50 = pos'.2 - 0) :=
  ⟨c5_amended.1 _ _ _ (by norm_num), c5_amended.2 _ _ _ _ (by norm_num)⟩

/-! ## Claim C6 -/

/-- C6: world_to_screen is the view transform screenPosition =
(position + panOffset) * zoomScale, componentwise, for every position and
view state (in particular for every positive zoom scale), and it is a total
function with no failure modes; position (10, 20) with pan offset (5, 5) and
zoom 2.0 maps to (30, 50). -/
theorem c6_apply_view_transform :
    (∀ (v : ViewState) (x y : ℝ),
      world_to_screen v x y =
        ((x + v.view_offset_x) * v.global_scale, (y + v.view_offset_y) * v.global_scale)) ∧
    world_to_screen ⟨5, 5, 2⟩ 10 20 = (30, 50) := by
  refine ⟨fun v x y => rfl, ?_⟩
  unfold world_to_screen
  norm_num

/-! ## Claim C7 -/

/-- C7: for every body with eccentricity 0 and inclination 0, a positive
period and a nonnegative world-unit orbital radius, the computed position
lies exactly on the circle of that radius centered at the origin:
sqrt(x^2 + y^2) = au_to_px a. Moreover the claim's example body (world radius
100, period 365, initial phase 0) is at (100, 0) at t = 0 and at (0, 100) at
t = 91.25 (a quarter period). -/
theorem c7_circular_orbit :
    (∀ (p : Planet) (v : ViewState) (t : ℝ), p.e = 0 → p.inclination = 0 →
      0 < p.period_days → 0 ≤ au_to_px v p.a →
      ∃ x y, compute_orbital_position p v t = .ok (x, y) ∧
        Real.sqrt (x ^ 2 + y ^ 2) = au_to_px v p.a) ∧
    compute_orbital_position ⟨0.5, 0, 0, 365, 0⟩ ⟨0, 0, 1⟩ 0 = .ok (100, 0) ∧
    compute_orbital_position ⟨0.5, 0, 0, 365, 0⟩ ⟨0, 0, 1⟩ 91.25 = .ok (0, 100) := by
  refine ⟨?_, compute_orbital_position_zero_example,
    compute_orbital_position_quarter_example⟩
  intro p v t he hi hp hr
  rw [compute_orbital_position_eval p v t (ne_of_gt hp) (by rw [he]; norm_num)]
  refine ⟨_, _, rfl, ?_⟩
  rw [he, hi, show radians 0 = 0 by unfold radians; ring, Real.cos_zero]
  rw [show (1 : ℝ) - 0 ^ 2 = 1 by norm_num, Real.sqrt_one]
  have hxy : (au_to_px v p.a * Real.cos (radians (orbit_theta p t))) ^ 2 +
      (au_to_px v p.a * 1 * Real.sin (radians (orbit_theta p t)) * 1) ^ 2 =
      au_to_px v p.a ^ 2 := by
    have hsc := Real.sin_sq_add_cos_sq (radians (orbit_theta p t))
    nlinarith [hsc]
  rw [hxy, Real.sqrt_sq hr]

/-- C7 (witness): the circle property at the concrete example body at the
quarter-period time. -/
theorem c7_witness :
    ∃ x y, compute_orbital_position ⟨0.5, 0, 0, 365, 0⟩ ⟨0, 0, 1⟩ 91.25 = .ok (x, y) ∧
      Real.sqrt (x ^ 2 + y ^ 2) = au_to_px ⟨0, 0, 1⟩ 0.5 :=
  c7_circular_orbit.1 _ _ _ rfl rfl (by norm_num)
    (by unfold au_to_px AU_TO_PIXELS; norm_num)

/-! ## Claim C8 -/

lemma loop_step_time_scale (s : SimState) (dt : ℝ) :
    (loop_step s dt).time_scale = s.time_scale := by
  unfold loop_step
  split <;> rfl

lemma loop_step_paused (s : SimState) (dt : ℝ) :
    (loop_step s dt).paused = s.paused := by
  unfold loop_step
  split <;> rfl

lemma apply_sim_event_time_scale_pos (s : SimState) (e : SimEvent)
    (h : 0 < s.time_scale) : 0 < (apply_sim_event s e).time_scale := by
  cases e with
  | frame dt => rw [apply_sim_event, loop_step_time_scale]; exact h
  | togglePause => exact h
  | speedUp => exact mul_pos h (by norm_num)
  | slowDown => exact div_pos h (by norm_num)

lemma foldl_sim_time_scale_pos (evs : List SimEvent) (s : SimState)
    (h : 0 < s.time_scale) : 0 < (evs.foldl apply_sim_event s).time_scale := by
  induction evs generalizing s with
  | nil => exact h
  | cons e evs ih =>
      rw [List.foldl_cons]
      exact ih _ (apply_sim_event_time_scale_pos s e h)

/-- C8: (a) a frame iteration taken while paused leaves the accumulated
sim_days unchanged; (b) a frame iteration taken while not paused advances
sim_days by exactly the elapsed real time times TIME_SCALE; (c) starting from
the initial globals, TIME_SCALE stays positive under any sequence of frames,
pause toggles, speed-ups and slow-downs; (d) hence with nonnegative elapsed
real time and positive TIME_SCALE the clock never decreases. -/
theorem c8_clock :
    (∀ (s : SimState) (dt : ℝ), s.paused = true →
      (loop_step s dt).sim_days = s.sim_days) ∧
    (∀ (s : SimState) (dt : ℝ), s.paused = false →
      (loop_step s dt).sim_days = s.sim_days + dt * s.time_scale) ∧
    (∀ evs : List SimEvent, 0 < (run_sim evs).time_scale) ∧
    (∀ (s : SimState) (dt : ℝ), 0 ≤ dt → 0 < s.time_scale →
      s.sim_days ≤ (loop_step s dt).sim_days) := by
  refine ⟨?_, ?_, ?_, ?_⟩
  · intro s dt h
    unfold loop_step
    rw [if_pos h]
  · intro s dt h
    unfold loop_step
    rw [h]
    simp
  · intro evs
    exact foldl_sim_time_scale_pos evs init_sim_state (by norm_num [init_sim_state])
  · intro s dt hdt hts
    unfold loop_step
    split
    · exact le_refl _
    · simp only
      nlinarith
/-- C8 (witness): the four parts of c8_clock at concrete states, elapsed
times and event sequences. -/
theorem c8_witness :
    ((loop_step ⟨5, 2, true⟩ 3).sim_days = (5 : ℝ)) ∧
    ((loop_step ⟨5, 2, false⟩ 3).sim_days = (5 : ℝ) + 3 * 2) ∧
    (0 < (run_sim [.speedUp, .frame 1, .togglePause, .slowDown]).time_scale) ∧
    ((⟨5, 2, false⟩ : SimState).sim_days ≤ (loop_step ⟨5, 2, false⟩ 3).sim_days) :=
  ⟨c8_clock.1 ⟨5, 2, true⟩ 3 rfl,
   c8_clock.2.1 ⟨5, 2, false⟩ 3 rfl,
   c8_clock.2.2.1 _,
   c8_clock.2.2.2 ⟨5, 2, false⟩ 3 (by norm_num) (by norm_num)⟩

/-! ## Claim C9 -/

lemma frame_draw_params (v : ViewState) (b : Bool) (t : ℝ)
    (st st' : PlanetState) (h : frame_draw v b t st = .ok st') :
    st'.params = st.params := by
  unfold frame_draw at h
  cases hc : compute_orbital_position st.params v t with
  | error er => rw [hc] at h; cases h
  | ok xy =>
      obtain ⟨x, y⟩ := xy
      rw [hc] at h
      simp only [Except.ok.injEq] at h
      rw [← h]

lemma draw_all_params (v : ViewState) (b : Bool) (t : ℝ) :
    ∀ (ps ps' : List PlanetState), draw_all v b t ps = .ok ps' →
      ps'.map PlanetState.params = ps.map PlanetState.params := by
  intro ps
  induction ps with
  | nil =>
      intro ps' h
      unfold draw_all at h
      simp only [Except.ok.injEq] at h
      rw [← h]
  | cons st rest ih =>
      intro ps' h
      unfold draw_all at h
      cases hst : frame_draw v b t st with
      | error er => rw [hst] at h; cases h
      | ok st' =>
          rw [hst] at h
          cases hrest : draw_all v b t rest with
          | error er => rw [hrest] at h; cases h
          | ok rest' =>
              rw [hrest] at h
              simp only [Except.ok.injEq] at h
              rw [← h]
              simp only [List.map_cons]
              rw [frame_draw_params v b t st st' hst, ih rest' hrest]

/-- C9: (a) a per-frame trail update of a planet or moon never grows the
trail beyond MAX_TRAIL_POINTS = 120; (b) when the append would exceed the
bound, exactly the oldest point is dropped; (c) a comet trail update never
grows the trail beyond COMET_TRAIL_LENGTH = 80; (d) the per-frame update of
the planet list only rewrites each record in place: the list of body
parameter records after a successful frame is the one built at startup —
no body is created or deleted. -/
theorem c9_trails :
    (∀ (b : Bool) (trail : List (ℝ × ℝ)) (pt : ℝ × ℝ),
      trail.length ≤ MAX_TRAIL_POINTS →
      (planet_trail_step b trail pt).length ≤ MAX_TRAIL_POINTS) ∧
    (∀ (trail : List (ℝ × ℝ)) (pt : ℝ × ℝ), MAX_TRAIL_POINTS ≤ trail.length →
      planet_trail_step true trail pt = trail.drop 1 ++ [pt]) ∧
    (∀ (trail : List (ℝ × ℝ)) (pt : ℝ × ℝ), trail.length ≤ COMET_TRAIL_LENGTH →
      (comet_trail_step trail pt).length ≤ COMET_TRAIL_LENGTH) ∧
    (∀ (v : ViewState) (b : Bool) (t : ℝ) (ps ps' : List PlanetState),
      draw_all v b t ps = .ok ps' →
      ps'.map PlanetState.params = ps.map PlanetState.params) := by
  refine ⟨?_, ?_, ?_, draw_all_params⟩
  · intro b trail pt h
    simp only [MAX_TRAIL_POINTS] at h ⊢
    simp only [planet_trail_step, MAX_TRAIL_POINTS]
    cases b with
    | false => simp
    | true =>
        simp only [if_true]
        split
        · simp only [List.length_drop, List.length_append, List.length_singleton]
          omega
        · rename_i hle
          simp only [not_lt, List.length_append, List.length_singleton] at hle
          simp only [List.length_append, List.length_singleton]
          exact hle
  · intro trail pt h
    simp only [MAX_TRAIL_POINTS] at h
    simp only [planet_trail_step, MAX_TRAIL_POINTS, if_true]
    rw [if_pos (by simp only [List.length_append, List.length_singleton]; omega)]
    exact List.drop_append_of_le_length (by omega)
  · intro trail pt h
    simp only [COMET_TRAIL_LENGTH] at h ⊢
    simp only [comet_trail_step, COMET_TRAIL_LENGTH]
    split
    · simp only [List.length_drop, List.length_append, List.length_singleton]
      omega
    · rename_i hle
      simp only [not_lt, List.length_append, List.length_singleton] at hle
      simp only [List.length_append, List.length_singleton]
      exact hle

lemma draw_all_example :
    draw_all ⟨0, 0, 1⟩ true 0 [⟨⟨0.5, 0, 0, 365, 0⟩, []⟩] =
      .ok [⟨⟨0.5, 0, 0, 365, 0⟩, [((100 : ℝ), (0 : ℝ))]⟩] := by
  unfold draw_all frame_draw
  rw [show (⟨⟨0.5, 0, 0, 365, 0⟩, []⟩ : PlanetState).params = ⟨0.5, 0, 0, 365, 0⟩ from rfl]
  rw [compute_orbital_position_zero_example]
  simp only [planet_trail_step, MAX_TRAIL_POINTS, world_to_screen, if_true]
  norm_num
  rfl

/-- C9 (witness): the four parts of c9_trails at concrete trails, a full
120-point trail, and a one-planet frame whose update succeeds. -/
theorem c9_witness :
    ((planet_trail_step true [] ((1 : ℝ), (2 : ℝ))).length ≤ MAX_TRAIL_POINTS) ∧
    (planet_trail_step true (List.replicate 120 ((0 : ℝ), (0 : ℝ))) (1, 2) =
      (List.replicate 120 ((0 : ℝ), (0 : ℝ))).drop 1 ++ [(1, 2)]) ∧
    ((comet_trail_step [] ((1 : ℝ), (2 : ℝ))).length ≤ COMET_TRAIL_LENGTH) ∧
    (([⟨⟨0.5, 0, 0, 365, 0⟩, [((100 : ℝ), (0 : ℝ))]⟩] : List PlanetState).map
        PlanetState.params =
      ([⟨⟨0.5, 0, 0, 365, 0⟩, []⟩] : List PlanetState).map PlanetState.params) :=
  ⟨c9_trails.1 true [] (1, 2) (by simp [MAX_TRAIL_POINTS]),
   c9_trails.2.1 _ _ (by simp [MAX_TRAIL_POINTS]),
   c9_trails.2.2.1 [] (1, 2) (by simp [COMET_TRAIL_LENGTH]),
   c9_trails.2.2.2 ⟨0, 0, 1⟩ true 0 _ _ draw_all_example⟩

/-! ## Claim C10 -/

/-- C10: Moon.update in solar_system.py is total for every orbital-period
value: the angular-speed divisor max(1.0, period) is positive, so the update
never raises and always returns a new angle and position; and every period
at most 1 (including zero and negative periods) yields the same angular
speed 360 / max(1, period) = 360 degrees per time unit. -/
theorem c10_ss_moon_total (period : ℝ) :
    (0 < max 1 period) ∧
    (∀ (angle mult dt orbit_px : ℝ) (parent : ℝ × ℝ),
      ∃ res, ss_moon_update angle period mult dt parent orbit_px = .ok res) ∧
    (period ≤ 1 → ss_moon_omega period = 360) := by
  have hpos : (0 : ℝ) < max 1 period := lt_of_lt_of_le one_pos (le_max_left 1 period)
  refine ⟨hpos, ?_, ?_⟩
  · intro angle mult dt orbit_px parent
    unfold ss_moon_update
    rw [if_neg (ne_of_gt hpos)]
    exact ⟨_, rfl⟩
  · intro h
    unfold ss_moon_omega
    rw [max_eq_left h]
    norm_num

/-- C10 (witness): totality and the 360-degree angular speed at the
degenerate period 0 (the claimed division-by-zero candidate). -/
theorem c10_witness :
    (0 < max (1 : ℝ) 0) ∧
    (∃ res, ss_moon_update 45 0 1 0.5 (3, 4) 12 = .ok res) ∧
    (ss_moon_omega 0 = 360) :=
  ⟨(c10_ss_moon_total 0).1,
   (c10_ss_moon_total 0).2.1 45 1 0.5 12 (3, 4),
   (c10_ss_moon_total 0).2.2 (by norm_num)⟩
